import Mathlib

/-
Verification of the zsh-llm-suggestions backend core against its specification.

The development shallowly embeds the Python source files
src/zsh_llm_suggestions/base.py, backends/openai.py and backends/copilot.py:

* strings are lists of characters (Python code points become Lean Char);
* Python functions that raise exceptions become Except-valued functions;
* a subprocess interaction is embedded as its observable outcome (captured
  stdout and stderr, or a timeout), and the process-management side effects
  (kill and drain of the child) are recorded in an explicit fate value;
* the run driver is embedded as a trace of the observable events it performs,
  in the order the source performs them.

Abstractions, all disclosed at the definition they concern: the character
class tests isprintable and isspace are modelled exactly on the ASCII range
and abstracted above it (no theorem below depends on a non-ASCII character),
and bounded-fuel recursion is used for scanners whose input shrinks by a
computed amount each step; the fuel is always initialised to more than the
input length, which the scan can never exhaust.
-/

/-- Python str.isspace / regex whitespace for a single character, exact on
ASCII (space, tab, newline, carriage return, vertical tab, form feed).
Non-ASCII Unicode whitespace is abstracted as non-whitespace; no input in
scope of the claims contains such a character. -/
def isPySpace (c : Char) : Bool :=
  c == ' ' || c == '\t' || c == '\n' || c == '\r' || c == '\x0b' || c == '\x0c'

/-- Python str.isprintable for a single character, exact on ASCII: code
points 0x20 to 0x7e are printable, ASCII control characters (below 0x20 and
0x7f) are not. Code points above 0x7f are abstracted as printable; no claim
below depends on them. -/
def pyIsPrintable (c : Char) : Bool :=
  (0x20 ≤ c.toNat && c.toNat ≤ 0x7e) || 0x7f < c.toNat

/-- Python str.strip() with no arguments: remove leading and trailing
whitespace. Embeds the .strip() calls of base.py and the backends. -/
def pyStrip (l : List Char) : List Char :=
  ((l.dropWhile isPySpace).reverse.dropWhile isPySpace).reverse

/-- Decides whether pat is a leading segment of l (Python str.startswith). -/
def listStartsWith : List Char → List Char → Bool
  | [], _ => true
  | _ :: _, [] => false
  | p :: ps, c :: cs => p == c && listStartsWith ps cs

/-- Index of the first occurrence of pat in l, none if absent.
Embeds Python str.find (which returns -1 for absence). -/
def firstOccur (pat : List Char) : List Char → Option Nat
  | [] => if listStartsWith pat [] then some 0 else none
  | c :: cs =>
    if listStartsWith pat (c :: cs) then some 0
    else (firstOccur pat cs).map (· + 1)

/-- Decides whether pat occurs somewhere in l (Python's in operator on str). -/
def occursIn (pat l : List Char) : Bool :=
  (firstOccur pat l).isSome

/-- Everything after the first occurrence of needle, or l unchanged when the
needle is absent. Embeds the idiom idx = l.find(needle); if idx != -1:
l = l[idx + len(needle):]. -/
def afterNeedle (needle l : List Char) : List Char :=
  match firstOccur needle l with
  | some i => l.drop (i + needle.length)
  | none => l

/-- Everything before the first occurrence of pat, or l unchanged when pat is
absent. Embeds the idiom idx = l.find(pat); if idx != -1: l = l[:idx]. -/
def truncAt (pat l : List Char) : List Char :=
  match firstOccur pat l with
  | some i => l.take i
  | none => l

/-! ## base.py: validate_input -/

/-- MAX_INPUT_LENGTH from base.py. -/
def MAX_INPUT_LENGTH : Nat := 2000

/-- The message of the null-byte ValueError in validate_input. -/
def nullBytesMsg : List Char := "Input contains null bytes".toList

/-- The message of the over-length ValueError in validate_input, with the
interpolated actual length. -/
def tooLongMsg (n : Nat) : List Char :=
  ("Input too long (max " ++ toString MAX_INPUT_LENGTH ++ " characters, got ").toList
    ++ (toString n).toList ++ ")".toList

/-- The character filter of validate_input: keep characters that are
printable or one of newline, carriage return, tab. -/
def keepChar (c : Char) : Bool :=
  pyIsPrintable c || c == '\n' || c == '\r' || c == '\t'

/-- validate_input from base.py: reject text containing a NUL byte, then
reject text longer than MAX_INPUT_LENGTH (measured on the original text),
then drop non-kept control characters and strip outer whitespace. -/
def validate_input (text : List Char) : Except (List Char) (List Char) :=
  if '\x00' ∈ text then
    Except.error nullBytesMsg
  else if text.length > MAX_INPUT_LENGTH then
    Except.error (tooLongMsg text.length)
  else
    Except.ok (pyStrip (text.filter keepChar))

/-! ## backends/openai.py: the generate post-processor

The source applies, to the stripped response content, three re.sub passes:
removal of opening fences at line starts, removal of closing fence lines,
and collapsing of runs of three or more newlines, followed by a final strip.
Each pass is embedded as a scanner over the character list that reproduces
the regex engine's leftmost, greedy, non-overlapping matching for the
specific pattern, tracking whether the scan position is at a line start
(the multiline anchor). -/

/-- One pass of re.sub with pattern (?m)^ followed by three backticks,
an optional zsh or sh tag, then greedy whitespace and an optional newline:
at a line start, delete the fence opener together with the maximal
whitespace run that follows it. The saved flag tells whether the next
scan position follows a newline of the original string. Fuel exceeds the
input length, so the final fuel-0 case is never reached. -/
def stripOpenFences : Nat → Bool → List Char → List Char
  | 0, _, s => s
  | fuel + 1, atStart, s =>
    match s with
    | [] => []
    | c :: cs =>
      if atStart && c == '\x60' && cs.take 2 == ['\x60', '\x60'] then
        let r1 := cs.drop 2
        let r2 :=
          if r1.take 3 == ['z', 's', 'h'] then r1.drop 3
          else if r1.take 2 == ['s', 'h'] then r1.drop 2
          else r1
        let ws := r2.takeWhile isPySpace
        let r3 := r2.dropWhile isPySpace
        stripOpenFences fuel (ws.getLast? == some '\n') r3
      else
        c :: stripOpenFences fuel (c == '\n') cs

/-- The greedy whitespace-to-line-end step of the closing-fence pattern:
given the text right after the three backticks, consume the longest
whitespace run whose end sits at the end of the string or right before a
newline (the regex engine backtracks into the run to the last newline).
Returns none when the pattern cannot complete here, otherwise the line-start
flag for the continuation and the unconsumed remainder. -/
def fenceCloseTail (r : List Char) : Option (Bool × List Char) :=
  let run := r.takeWhile isPySpace
  let rest := r.dropWhile isPySpace
  if rest.isEmpty then some (false, [])
  else
    let revRun := run.reverse
    let keepRev := revRun.takeWhile (fun c => !(c == '\n'))
    match revRun.dropWhile (fun c => !(c == '\n')) with
    | [] => none
    | _ :: consumedRev =>
      some (consumedRev.head? == some '\n', ('\n' :: keepRev.reverse) ++ rest)

/-- One pass of re.sub with pattern (?m), an optional newline, then ^ and
three backticks, then greedy whitespace up to a line end: delete closing
fence lines together with the preceding newline where present. Fuel exceeds
the input length, so the fuel-0 case is never reached. -/
def stripCloseFences : Nat → Bool → List Char → List Char
  | 0, _, s => s
  | fuel + 1, atStart, s =>
    match s with
    | [] => []
    | c :: cs =>
      if c == '\n' && cs.take 3 == ['\x60', '\x60', '\x60'] then
        match fenceCloseTail (cs.drop 3) with
        | some (st, rem) => stripCloseFences fuel st rem
        | none => c :: stripCloseFences fuel true cs
      else if atStart && c == '\x60' && cs.take 2 == ['\x60', '\x60'] then
        match fenceCloseTail (cs.drop 2) with
        | some (st, rem) => stripCloseFences fuel st rem
        | none => c :: stripCloseFences fuel false cs
      else
        c :: stripCloseFences fuel (c == '\n') cs

/-- A replacement run of k newlines: three or more collapse to exactly two. -/
def newlineRun (k : Nat) : List Char :=
  if 3 ≤ k then ['\n', '\n'] else List.replicate k '\n'

/-- Scanner for re.sub collapsing runs of three or more newlines to two,
carrying the count of pending newlines. -/
def collapseGo : Nat → List Char → List Char
  | k, [] => newlineRun k
  | k, c :: cs =>
    if c == '\n' then collapseGo (k + 1) cs
    else newlineRun k ++ c :: collapseGo 0 cs

/-- re.sub replacing each run of three or more newlines by exactly two. -/
def collapseNewlines (s : List Char) : List Char :=
  collapseGo 0 s

/-- The generate post-processor of OpenAIBackend.generate (backends/openai.py
lines 70-80): strip the content, remove opening fences, remove closing fence
lines, collapse blank-line runs, and strip again. -/
def openai_generate_postprocess (content : List Char) : List Char :=
  let r0 := pyStrip content
  let r1 := stripOpenFences (r0.length + 1) true r0
  let r2 := stripCloseFences (r1.length + 1) true r1
  pyStrip (collapseNewlines r2)

/-! ## backends/copilot.py: CopilotBackend.generate and CopilotBackend.explain

A subprocess invocation is embedded by its observable outcome: either the
communicate call timed out, or it finished with captured stdout and stderr.
The source's kill-and-drain of the child on timeout is recorded in an
explicit fate value. The nested gh auth status subprocess of the
extension-missing branch is embedded by its captured stderr, passed in as a
parameter. -/

/-- Outcome of process.communicate with the 30 second timeout. -/
inductive CommResult
  | timedOut
  | finished (output error : List Char)
deriving DecidableEq

/-- What happened to the child process: it ran to completion, or it was
killed and then drained (the communicate call after kill). -/
inductive ProcFate
  | ranToCompletion
  | killedAndDrained
deriving DecidableEq

/-- MISSING_PREREQUISITES from base.py. -/
def MISSING_PREREQUISITES : List Char :=
  "zsh-llm-suggestions missing prerequisites:".toList

/-- The stderr marker of a missing OAuth token. -/
def oauthMarker : List Char := "Error: No valid OAuth token detected".toList

/-- The stderr marker of a missing copilot extension. -/
def unknownCmdMarker : List Char :=
  "unknown command \"copilot\" for \"gh\"".toList

/-- The gh auth status stderr marker of a logged-out CLI. -/
def notLoggedMarker : List Char :=
  "You are not logged into any GitHub hosts".toList

/-- The stdout marker of an unavailable suggestion. -/
def noSuggestMarker : List Char :=
  "Suggestion not readily available. Please revise for better results.".toList

/-- The stdout needle that precedes the suggested command. -/
def suggestionNeedle : List Char := "# Suggestion:".toList

/-- The ANSI prompt-redraw byte sequence at which generate output is cut. -/
def ansiRedraw : List Char := "\x0a\x0a\x1b\x37\x1b\x5b\x3f".toList

/-- The fallback answer returned when no suggestion is available. -/
def fallbackAnswer : List Char := "No answer from GitHub CoPilot.".toList

/-- The authentication-remedy message of both generate and explain. -/
def authRemedyMsg : List Char :=
  MISSING_PREREQUISITES ++
    " Authenticate with github first: gh auth login --web -h github.com".toList

/-- The extension-install remedy message of both generate and explain. -/
def extensionRemedyMsg : List Char :=
  MISSING_PREREQUISITES ++
    " Install github copilot extension first: gh extension install github/gh-copilot".toList

/-- The timeout message of both generate and explain. -/
def timeoutMsg : List Char := "Request timed out after 30 seconds".toList

/-- The answer-extraction step of CopilotBackend.generate (copilot.py lines
94-103): take what follows the first "# Suggestion:" needle if present, cut
at the first ANSI prompt-redraw sequence if present, strip outer whitespace. -/
def copilotExtractGen (output : List Char) : List Char :=
  pyStrip (truncAt ansiRedraw (afterNeedle suggestionNeedle output))

/-- CopilotBackend.generate, as a function of the subprocess outcome and of
the stderr of the nested gh auth status call: classify stderr markers in
priority order, then the no-suggestion stdout marker, then extract the
answer; an empty answer next to a non-empty stderr becomes a generic error. -/
def copilotGenerate (comm : CommResult) (authStatusStderr : List Char) :
    ProcFate × Except (List Char) (List Char) :=
  match comm with
  | .timedOut => (.killedAndDrained, Except.error timeoutMsg)
  | .finished output error =>
    (.ranToCompletion,
      if occursIn oauthMarker error then Except.error authRemedyMsg
      else if occursIn unknownCmdMarker error then
        if occursIn notLoggedMarker authStatusStderr then Except.error authRemedyMsg
        else Except.error extensionRemedyMsg
      else if occursIn noSuggestMarker output then Except.ok fallbackAnswer
      else
        let answer := copilotExtractGen output
        if answer = [] ∧ error ≠ [] then Except.error error
        else Except.ok answer)

/-- The ANSI reset sequence ESC [ 0 m. -/
def ansiReset : List Char := "\x1b\x5b\x30\x6d".toList

/-- The styled "Explanation:" needle of CopilotBackend.explain, stored in the
source as an escaped byte sequence. -/
def explanationNeedle : List Char :=
  "\x45\x78\x70\x6c\x61\x6e\x61\x74\x69\x6f\x6e\x1b\x5b\x30\x6d\x1b\x5b\x31\x6d\x3a".toList

/-- The loop of the anchored re.sub in explain: repeatedly delete a leading
group of one or more spaces followed by a newline. Fuel exceeds the input
length, so the fuel-0 case is never reached. -/
def dropBlankGroups : Nat → List Char → List Char
  | 0, l => l
  | fuel + 1, l =>
    let sp := l.takeWhile (fun c => c == ' ')
    let rest := l.dropWhile (fun c => c == ' ')
    if sp ≠ [] ∧ rest.head? = some '\n' then dropBlankGroups fuel rest.tail
    else l

/-- The anchored re.sub of explain (copilot.py line 174): when the output
starts with the ANSI reset sequence, delete the blank styled lines (groups of
spaces ending in a newline) that immediately follow it. -/
def ansiBlankStrip (o : List Char) : List Char :=
  if listStartsWith ansiReset o then
    ansiReset ++ dropBlankGroups o.length (o.drop 4)
  else o

/-- The answer-extraction step of CopilotBackend.explain (copilot.py lines
169-176): take what follows the styled Explanation needle if present, delete
leading blank styled lines after the ANSI reset, strip outer whitespace. -/
def copilotExtractExplain (output : List Char) : List Char :=
  pyStrip (ansiBlankStrip (afterNeedle explanationNeedle output))

/-- CopilotBackend.explain, as a function of the subprocess outcome and of
the stderr of the nested gh auth status call; same classification structure
as generate with the explain-specific extraction. -/
def copilotExplain (comm : CommResult) (authStatusStderr : List Char) :
    ProcFate × Except (List Char) (List Char) :=
  match comm with
  | .timedOut => (.killedAndDrained, Except.error timeoutMsg)
  | .finished output error =>
    (.ranToCompletion,
      if occursIn oauthMarker error then Except.error authRemedyMsg
      else if occursIn unknownCmdMarker error then
        if occursIn notLoggedMarker authStatusStderr then Except.error authRemedyMsg
        else Except.error extensionRemedyMsg
      else if occursIn noSuggestMarker output then Except.ok fallbackAnswer
      else
        let answer := copilotExtractExplain output
        if answer = [] ∧ error ≠ [] then Except.error error
        else Except.ok answer)

/-! ## base.py: LLMBackend.run

The driver is embedded as the trace of observable events it performs, in
source order: printing a line, reading stdin, exiting with a code. A backend
is embedded by the outcome of its three methods. -/

/-- An observable event of the run driver. -/
inductive RunEvent
  | printed (line : List Char)
  | readStdin
  | exited (code : Nat)
deriving DecidableEq

/-- A backend, embedded by the outcomes of its methods: the prerequisite
check result pair, and the generate and explain methods as Except-valued
functions of the validated buffer. -/
structure BackendModel where
  prereqOk : Bool
  prereqMsg : List Char
  gen : List Char → Except (List Char) (List Char)
  expl : List Char → Except (List Char) (List Char)

/-- The unknown-mode line printed by run. -/
def unknownModeMsg (mode : List Char) : List Char :=
  ("ERROR: something went wrong in zsh-llm-suggestions, please report a bug. " ++
    "Got unknown mode: ").toList ++ mode

/-- The invalid-input line printed by run. -/
def invalidInputLine (e : List Char) : List Char :=
  "echo \"ERROR: Invalid input: ".toList ++ e ++ "\"".toList

/-- The request-failed line printed by run. -/
def requestFailedLine (e : List Char) : List Char :=
  "echo \"ERROR: Request failed: ".toList ++ e ++ "\"".toList

/-- LLMBackend.run from base.py, as the trace of its events in source order:
mode validation, then the prerequisite check, then the stdin read, then input
validation, then dispatch to generate or explain. -/
def runDriver (mode : List Char) (b : BackendModel) (stdin : List Char) :
    List RunEvent :=
  if mode ≠ "generate".toList ∧ mode ≠ "explain".toList then
    [.printed (unknownModeMsg mode), .exited 1]
  else if b.prereqOk = false then
    [.printed b.prereqMsg, .exited 1]
  else
    .readStdin ::
      match validate_input stdin with
      | Except.error e => [.printed (invalidInputLine e), .exited 1]
      | Except.ok buffer =>
        match (if mode = "generate".toList then b.gen buffer else b.expl buffer) with
        | Except.error e => [.printed (requestFailedLine e), .exited 1]
        | Except.ok result => [.printed result, .exited 0]

/-! ## Witness fixtures -/

deriving instance DecidableEq for Except

/-- A marker-free non-empty stderr capture, for exercising the generic
failure branch. -/
def boomStderr : List Char := "boom".toList

/-- A stdout capture whose answer precedes the ANSI prompt-redraw sequence. -/
def sampleRedrawOut : List Char :=
  "ls -la\x0a\x0a\x1b\x37\x1b\x5b\x3fprompt redraw".toList

/-- A marker-free non-empty stderr capture next to a non-empty answer. -/
def sampleWarnErr : List Char := "warning: slow".toList

/-- An input made of 2001 NUL bytes: longer than the cap and containing NUL. -/
def longNulInput : List Char := List.replicate 2001 '\x00'

/-- A backend whose prerequisite check fails, with a remedy line. -/
def stubBackend : BackendModel where
  prereqOk := false
  prereqMsg := "echo remedy".toList
  gen := fun _ => Except.ok []
  expl := fun _ => Except.ok []

/-! ## Helper lemmas -/

theorem mem_of_mem_dropWhile {p : Char → Bool} {a : Char} {l : List Char}
    (h : a ∈ l.dropWhile p) : a ∈ l := by
  induction l with
  | nil => simp at h
  | cons c t ih =>
    by_cases hp : p c
    · rw [List.dropWhile_cons, if_pos hp] at h
      exact List.mem_cons_of_mem _ (ih h)
    · rwa [List.dropWhile_cons, if_neg hp] at h

theorem length_dropWhile_le (p : Char → Bool) (l : List Char) :
    (l.dropWhile p).length ≤ l.length := by
  induction l with
  | nil => simp
  | cons c t ih =>
    by_cases hp : p c
    · rw [List.dropWhile_cons, if_pos hp]
      exact le_trans ih (by simp)
    · rw [List.dropWhile_cons, if_neg hp]

theorem dropWhile_dropWhile (p : Char → Bool) (l : List Char) :
    (l.dropWhile p).dropWhile p = l.dropWhile p := by
  induction l with
  | nil => rfl
  | cons a t ih =>
    by_cases hp : p a
    · simp [List.dropWhile_cons, hp, ih]
    · simp [List.dropWhile_cons, hp]

theorem dropWhile_eq_self_of_append {p : Char → Bool} {l t w : List Char}
    (hpre : l ++ t = w) (hw : w.dropWhile p = w) : l.dropWhile p = l := by
  cases l with
  | nil => rfl
  | cons a u =>
    have ha : p a = false := by
      by_contra hcontra
      have hpa : p a = true := by
        cases hh : p a
        · exact absurd hh hcontra
        · rfl
      rw [← hpre, List.cons_append, List.dropWhile_cons, if_pos hpa] at hw
      have hlen := congrArg List.length hw
      rw [List.length_cons] at hlen
      have hle := length_dropWhile_le p (u ++ t)
      omega
    simp [List.dropWhile_cons, ha]

theorem mem_of_mem_pyStrip {a : Char} {l : List Char} (h : a ∈ pyStrip l) :
    a ∈ l := by
  unfold pyStrip at h
  rw [List.mem_reverse] at h
  have h1 := mem_of_mem_dropWhile h
  rw [List.mem_reverse] at h1
  exact mem_of_mem_dropWhile h1

theorem length_pyStrip_le (l : List Char) : (pyStrip l).length ≤ l.length := by
  unfold pyStrip
  calc ((l.dropWhile isPySpace).reverse.dropWhile isPySpace).reverse.length
      = ((l.dropWhile isPySpace).reverse.dropWhile isPySpace).length := by
        rw [List.length_reverse]
    _ ≤ (l.dropWhile isPySpace).reverse.length := length_dropWhile_le _ _
    _ = (l.dropWhile isPySpace).length := by rw [List.length_reverse]
    _ ≤ l.length := length_dropWhile_le _ _

theorem pyStrip_idem (l : List Char) : pyStrip (pyStrip l) = pyStrip l := by
  have hmm : (l.dropWhile isPySpace).dropWhile isPySpace = l.dropWhile isPySpace :=
    dropWhile_dropWhile _ _
  have hsplit : pyStrip l ++ ((l.dropWhile isPySpace).reverse.takeWhile isPySpace).reverse
      = l.dropWhile isPySpace := by
    show ((l.dropWhile isPySpace).reverse.dropWhile isPySpace).reverse
        ++ ((l.dropWhile isPySpace).reverse.takeWhile isPySpace).reverse
      = l.dropWhile isPySpace
    rw [← List.reverse_append, List.takeWhile_append_dropWhile, List.reverse_reverse]
  have hrl : (pyStrip l).dropWhile isPySpace = pyStrip l :=
    dropWhile_eq_self_of_append hsplit hmm
  have hrrev : (pyStrip l).reverse = (l.dropWhile isPySpace).reverse.dropWhile isPySpace := by
    unfold pyStrip
    rw [List.reverse_reverse]
  have hrrev2 : (pyStrip l).reverse.dropWhile isPySpace = (pyStrip l).reverse := by
    rw [hrrev]
    exact dropWhile_dropWhile _ _
  have hunfold : pyStrip (pyStrip l)
      = (((pyStrip l).dropWhile isPySpace).reverse.dropWhile isPySpace).reverse := rfl
  rw [hunfold, hrl, hrrev2, List.reverse_reverse]

theorem listStartsWith_append {pat a : List Char} (b : List Char)
    (h : listStartsWith pat a = true) : listStartsWith pat (a ++ b) = true := by
  induction pat generalizing a with
  | nil => rfl
  | cons x xs ih =>
    cases a with
    | nil => simp [listStartsWith] at h
    | cons c cs =>
      simp only [listStartsWith, Bool.and_eq_true] at h ⊢
      exact ⟨h.1, ih h.2⟩

theorem occursIn_nil_pat (l : List Char) : occursIn [] l = true := by
  cases l <;> simp [occursIn, firstOccur, listStartsWith]

theorem occursIn_append_left {pat a : List Char} (b : List Char)
    (h : occursIn pat a = true) : occursIn pat (a ++ b) = true := by
  induction a with
  | nil =>
    have : pat = [] := by
      cases pat with
      | nil => rfl
      | cons x xs => simp [occursIn, firstOccur, listStartsWith] at h
    rw [this]
    exact occursIn_nil_pat _
  | cons c cs ih =>
    by_cases hs : listStartsWith pat (c :: cs) = true
    · have hs2 := listStartsWith_append b hs
      simp only [List.cons_append] at hs2 ⊢
      simp [occursIn, firstOccur, hs2]
    · have hmem : occursIn pat cs = true := by
        simp only [occursIn, firstOccur] at h
        rw [if_neg hs] at h
        simpa using h
      have := ih hmem
      simp only [List.cons_append]
      simp only [occursIn, firstOccur]
      by_cases hs3 : listStartsWith pat (c :: (cs ++ b)) = true
      · simp [hs3]
      · rw [if_neg hs3]
        simpa using this

theorem occursIn_tooLong (n : Nat) :
    occursIn "too long".toList (tooLongMsg n) = true := by
  unfold tooLongMsg
  rw [List.append_assoc]
  exact occursIn_append_left _ (by decide)

/-! ## Claims -/

/-- C1 (counterexample): the generate post-processor is not idempotent on its
own output. On the input of six backticks followed by zsh, one pass yields
the three-backtick zsh opener (only the first three backticks sit at a line
start), and a second pass deletes that opener entirely. -/
theorem openai_postprocess_not_idempotent :
    openai_generate_postprocess
        (openai_generate_postprocess "\x60\x60\x60\x60\x60\x60zsh".toList) ≠
      openai_generate_postprocess "\x60\x60\x60\x60\x60\x60zsh".toList := by
  decide

/-- C1 (amended): each of the three fenced inputs yields exactly "ls -la";
the prose-plus-fence input's output contains "cd /tmp" and no triple-backtick
sequence; and the post-processor is idempotent on the outputs of these four
inputs (though not on all of its outputs). -/
theorem openai_postprocess_fence_examples :
    (openai_generate_postprocess "\x60\x60\x60zsh\nls -la\n\x60\x60\x60".toList
        = "ls -la".toList) ∧
    (openai_generate_postprocess "\x60\x60\x60sh\nls -la\n\x60\x60\x60".toList
        = "ls -la".toList) ∧
    (openai_generate_postprocess "\x60\x60\x60\nls -la\n\x60\x60\x60".toList
        = "ls -la".toList) ∧
    (occursIn "cd /tmp".toList
        (openai_generate_postprocess
          "Here\x27s the command:\n\x60\x60\x60zsh\ncd /tmp\n\x60\x60\x60".toList)
      = true) ∧
    (occursIn "\x60\x60\x60".toList
        (openai_generate_postprocess
          "Here\x27s the command:\n\x60\x60\x60zsh\ncd /tmp\n\x60\x60\x60".toList)
      = false) ∧
    (openai_generate_postprocess "ls -la".toList = "ls -la".toList) ∧
    (openai_generate_postprocess
        (openai_generate_postprocess
          "Here\x27s the command:\n\x60\x60\x60zsh\ncd /tmp\n\x60\x60\x60".toList)
      = openai_generate_postprocess
          "Here\x27s the command:\n\x60\x60\x60zsh\ncd /tmp\n\x60\x60\x60".toList) := by
  decide

/-- C2: whenever the captured stderr contains the OAuth-missing marker, both
CopilotBackend.generate and CopilotBackend.explain raise the
authentication-remedy error, whose message contains the login command
"gh auth login", regardless of the stdout content. -/
theorem copilot_oauth_marker_auth_error (out err auth : List Char)
    (h : occursIn oauthMarker err = true) :
    copilotGenerate (.finished out err) auth
        = (.ranToCompletion, Except.error authRemedyMsg) ∧
    copilotExplain (.finished out err) auth
        = (.ranToCompletion, Except.error authRemedyMsg) ∧
    occursIn "gh auth login".toList authRemedyMsg = true := by
  refine ⟨?_, ?_, by decide⟩
  · simp [copilotGenerate, h]
  · simp [copilotExplain, h]

/-- C2 (witness): the OAuth marker alone as stderr triggers the
authentication-remedy error in both methods. -/
theorem copilot_oauth_marker_auth_error_witness :
    copilotGenerate (.finished [] oauthMarker) []
        = (.ranToCompletion, Except.error authRemedyMsg) ∧
    copilotExplain (.finished [] oauthMarker) []
        = (.ranToCompletion, Except.error authRemedyMsg) ∧
    occursIn "gh auth login".toList authRemedyMsg = true :=
  copilot_oauth_marker_auth_error [] oauthMarker [] (by decide)

/-- C5: on the timeout branch, both generate and explain kill and drain the
child and raise the timeout error, whose message states the request timed
out after 30 seconds; no other outcome arises on that branch. -/
theorem copilot_timeout_kill_drain (auth : List Char) :
    copilotGenerate .timedOut auth
        = (.killedAndDrained, Except.error timeoutMsg) ∧
    copilotExplain .timedOut auth
        = (.killedAndDrained, Except.error timeoutMsg) ∧
    occursIn "timed out after 30 seconds".toList timeoutMsg = true :=
  ⟨rfl, rfl, by decide⟩

/-- C4 (counterexample): a stdout containing the no-suggestion marker does
not guarantee the fallback string. With the OAuth marker in stderr, generate
raises the authentication error instead of returning the fallback. -/
theorem copilot_no_suggestion_overridden :
    occursIn noSuggestMarker noSuggestMarker = true ∧
    (copilotGenerate (.finished noSuggestMarker oauthMarker) []).2
        = Except.error authRemedyMsg ∧
    (copilotGenerate (.finished noSuggestMarker oauthMarker) []).2
        ≠ Except.ok fallbackAnswer := by
  decide

/-- C4 (amended): whenever stdout contains the no-suggestion marker and
stderr contains neither the OAuth marker nor the unknown-command marker,
generate returns the literal fallback string and does not raise. -/
theorem copilot_no_suggestion_fallback (out err auth : List Char)
    (h1 : occursIn noSuggestMarker out = true)
    (h2 : occursIn oauthMarker err = false)
    (h3 : occursIn unknownCmdMarker err = false) :
    copilotGenerate (.finished out err) auth
        = (.ranToCompletion, Except.ok fallbackAnswer) := by
  simp [copilotGenerate, h1, h2, h3]

/-- C4 (witness): the no-suggestion marker with empty stderr yields the
fallback string. -/
theorem copilot_no_suggestion_fallback_witness :
    copilotGenerate (.finished noSuggestMarker []) []
        = (.ranToCompletion, Except.ok fallbackAnswer) :=
  copilot_no_suggestion_fallback noSuggestMarker [] []
    (by decide) (by decide) (by decide)

/-- C3: validate_input errors exactly when the original text contains a NUL
byte or its original length exceeds 2000 characters; the null-byte error
message mentions "null bytes", the over-length message mentions "too long",
and a NUL-free input of exactly 2000 characters passes. The length test is
the original text's length, before any filtering. -/
theorem validate_input_spec (t : List Char) :
    ((∃ e, validate_input t = Except.error e)
        ↔ ('\x00' ∈ t ∨ 2000 < t.length)) ∧
    ('\x00' ∈ t →
      validate_input t = Except.error nullBytesMsg ∧
      occursIn "null bytes".toList nullBytesMsg = true) ∧
    ('\x00' ∉ t → 2000 < t.length →
      validate_input t = Except.error (tooLongMsg t.length) ∧
      occursIn "too long".toList (tooLongMsg t.length) = true) ∧
    (t.length = 2000 → '\x00' ∉ t →
      validate_input t = Except.ok (pyStrip (t.filter keepChar))) := by
  refine ⟨⟨?_, ?_⟩, ?_, ?_, ?_⟩
  · rintro ⟨e, he⟩
    by_cases h0 : '\x00' ∈ t
    · exact Or.inl h0
    by_cases hl : 2000 < t.length
    · exact Or.inr hl
    · simp [validate_input, MAX_INPUT_LENGTH, h0, hl] at he
  · rintro (h0 | hl)
    · exact ⟨nullBytesMsg, by simp [validate_input, h0]⟩
    · by_cases h0 : '\x00' ∈ t
      · exact ⟨nullBytesMsg, by simp [validate_input, h0]⟩
      · exact ⟨tooLongMsg t.length,
          by simp [validate_input, MAX_INPUT_LENGTH, h0, hl]⟩
  · intro h0
    exact ⟨by simp [validate_input, h0], by decide⟩
  · intro h0 hl
    exact ⟨by simp [validate_input, MAX_INPUT_LENGTH, h0, hl], occursIn_tooLong _⟩
  · intro hlen h0
    simp [validate_input, MAX_INPUT_LENGTH, h0, hlen]

/-- C3 (witness): the single NUL byte fails with the null-byte message. -/
theorem validate_input_spec_witness :
    validate_input ['\x00'] = Except.error nullBytesMsg ∧
    occursIn "null bytes".toList nullBytesMsg = true :=
  (validate_input_spec ['\x00']).2.1 (by decide)

/-- C10: an input that both contains a NUL byte and is longer than 2000
characters fails with the null-byte error, not the length error: the NUL
check precedes the length check. -/
theorem validate_input_null_checked_first (t : List Char)
    (h0 : '\x00' ∈ t) (_hl : 2000 < t.length) :
    validate_input t = Except.error nullBytesMsg := by
  simp [validate_input, h0]

/-- C10 (witness): 2001 NUL bytes fail with the null-byte message. -/
theorem validate_input_null_checked_first_witness :
    validate_input longNulInput = Except.error nullBytesMsg :=
  validate_input_null_checked_first longNulInput
    (by simp only [longNulInput, List.mem_replicate]
        norm_num)
    (by simp only [longNulInput, List.length_replicate]
        norm_num)

/-- C7: validate_input is idempotent on success: a successful result passes
validation again, unchanged. -/
theorem validate_input_idempotent (x r : List Char)
    (h : validate_input x = Except.ok r) : validate_input r = Except.ok r := by
  have h0 : '\x00' ∉ x := by
    intro m
    simp [validate_input, m] at h
  have hl : ¬(MAX_INPUT_LENGTH < x.length) := by
    intro m
    simp [validate_input, h0, m] at h
  have hr : r = pyStrip (x.filter keepChar) := by
    simp [validate_input, h0, hl] at h
    exact h.symm
  have hmem : ∀ a ∈ r, keepChar a = true := by
    intro a ha
    rw [hr] at ha
    exact (List.mem_filter.mp (mem_of_mem_pyStrip ha)).2
  have h0r : '\x00' ∉ r := fun m => absurd (hmem _ m) (by decide)
  have hlr : ¬(MAX_INPUT_LENGTH < r.length) := by
    intro m
    apply hl
    calc MAX_INPUT_LENGTH < r.length := m
      _ ≤ (x.filter keepChar).length := by
          rw [hr]
          exact length_pyStrip_le _
      _ ≤ x.length := List.length_filter_le _ _
  have hfilter : r.filter keepChar = r := List.filter_eq_self.mpr hmem
  have hstrip : pyStrip r = r := by
    rw [hr]
    exact pyStrip_idem _
  simp [validate_input, h0r, hlr, hfilter, hstrip]

/-- C7 (witness): a plain two-character input validates to itself, and the
result validates to itself again. -/
theorem validate_input_idempotent_witness :
    validate_input "hi".toList = Except.ok "hi".toList :=
  validate_input_idempotent "hi".toList "hi".toList (by decide)

/-- C6: whenever the mode is valid and the prerequisite check fails, the run
driver prints the remedy text and exits with code 1, and the stdin read
never happens. -/
theorem run_prereq_before_stdin (mode stdin : List Char) (b : BackendModel)
    (hm : mode = "generate".toList ∨ mode = "explain".toList)
    (hp : b.prereqOk = false) :
    runDriver mode b stdin = [RunEvent.printed b.prereqMsg, RunEvent.exited 1] ∧
    RunEvent.readStdin ∉ runDriver mode b stdin := by
  rcases hm with h | h <;> subst h <;> refine ⟨?_, ?_⟩ <;> simp [runDriver, hp]

/-- C6 (witness): a failing prerequisite check on generate mode prints only
the remedy and the exit, with no stdin read in the trace. -/
theorem run_prereq_before_stdin_witness :
    runDriver "generate".toList stubBackend []
        = [RunEvent.printed stubBackend.prereqMsg, RunEvent.exited 1] ∧
    RunEvent.readStdin ∉ runDriver "generate".toList stubBackend [] :=
  run_prereq_before_stdin "generate".toList [] stubBackend (Or.inl rfl) rfl

/-- C8 (counterexample): with an empty stdout and a marker-free non-empty
stderr, generate raises the stderr as a generic error instead of returning
the stripped stdout. -/
theorem copilot_generate_empty_stdout_raises :
    occursIn oauthMarker boomStderr = false ∧
    occursIn unknownCmdMarker boomStderr = false ∧
    occursIn suggestionNeedle ([] : List Char) = false ∧
    (copilotGenerate (.finished [] boomStderr) []).2 = Except.error boomStderr ∧
    (copilotGenerate (.finished [] boomStderr) []).2
        ≠ Except.ok (pyStrip (truncAt ansiRedraw [])) := by
  decide

/-- C8 (amended): whenever stderr contains neither stderr marker, stdout
contains neither the no-suggestion marker nor the "# Suggestion:" needle,
and it is not the case that the stripped truncated stdout is empty while
stderr is non-empty, generate returns the whole stdout, truncated at the
first ANSI prompt-redraw sequence if present, with outer whitespace
stripped. -/
theorem copilot_generate_passthrough (out err auth : List Char)
    (h1 : occursIn oauthMarker err = false)
    (h2 : occursIn unknownCmdMarker err = false)
    (h3 : occursIn noSuggestMarker out = false)
    (h4 : occursIn suggestionNeedle out = false)
    (h5 : ¬(pyStrip (truncAt ansiRedraw out) = [] ∧ err ≠ [])) :
    copilotGenerate (.finished out err) auth
        = (.ranToCompletion, Except.ok (pyStrip (truncAt ansiRedraw out))) := by
  have ha : afterNeedle suggestionNeedle out = out := by
    unfold afterNeedle
    cases hf : firstOccur suggestionNeedle out with
    | none => rfl
    | some i => simp [occursIn, hf] at h4
  simp [copilotGenerate, copilotExtractGen, h1, h2, h3, ha, h5]

/-- C8 (witness): an answer followed by the ANSI redraw sequence, next to a
marker-free stderr, passes through truncated and stripped. -/
theorem copilot_generate_passthrough_witness :
    copilotGenerate (.finished sampleRedrawOut sampleWarnErr) []
        = (.ranToCompletion,
            Except.ok (pyStrip (truncAt ansiRedraw sampleRedrawOut))) :=
  copilot_generate_passthrough sampleRedrawOut sampleWarnErr []
    (by decide) (by decide) (by decide) (by decide) (by decide)

/-- C9: on subprocess results that reach the extraction step (no stderr
marker and no no-suggestion stdout marker), an empty extracted answer next
to an empty stderr makes both generate and explain return the empty string
successfully, and each raises the generic stderr error exactly when the
extracted answer is empty and stderr is non-empty. -/
theorem copilot_empty_answer_classification (out err auth : List Char)
    (h1 : occursIn oauthMarker err = false)
    (h2 : occursIn unknownCmdMarker err = false)
    (h3 : occursIn noSuggestMarker out = false) :
    (err = [] → copilotExtractGen out = [] →
      (copilotGenerate (.finished out err) auth).2 = Except.ok []) ∧
    ((∃ e, (copilotGenerate (.finished out err) auth).2 = Except.error e)
        ↔ (copilotExtractGen out = [] ∧ err ≠ [])) ∧
    (err = [] → copilotExtractExplain out = [] →
      (copilotExplain (.finished out err) auth).2 = Except.ok []) ∧
    ((∃ e, (copilotExplain (.finished out err) auth).2 = Except.error e)
        ↔ (copilotExtractExplain out = [] ∧ err ≠ [])) := by
  refine ⟨?_, ?_, ?_, ?_⟩
  · intro he hx
    subst he
    simp [copilotGenerate, h1, h2, h3, hx]
  · by_cases hc : copilotExtractGen out = [] ∧ err ≠ []
    · simp [copilotGenerate, h1, h2, h3, hc]
    · simp [copilotGenerate, h1, h2, h3, hc]
  · intro he hx
    subst he
    simp [copilotExplain, h1, h2, h3, hx]
  · by_cases hc : copilotExtractExplain out = [] ∧ err ≠ []
    · simp [copilotExplain, h1, h2, h3, hc]
    · simp [copilotExplain, h1, h2, h3, hc]

/-- C9 (witness): empty stdout and empty stderr make both methods return the
empty string successfully. -/
theorem copilot_empty_answer_classification_witness :
    (copilotGenerate (.finished [] []) []).2 = Except.ok [] ∧
    (copilotExplain (.finished [] []) []).2 = Except.ok [] :=
  ⟨(copilot_empty_answer_classification [] [] []
      (by decide) (by decide) (by decide)).1 rfl (by decide),
   (copilot_empty_answer_classification [] [] []
      (by decide) (by decide) (by decide)).2.2.1 rfl (by decide)⟩
